import Mathlib

/-!
Shallow embedding of the MCPServerLearnings repository: two MCP server
variants, `src/TestHttpToolsMcpServer.py` and `src/mcpserver.py`.

Modelling conventions:
* Python dict values built for `json.dumps` are modelled as structured
  `Json` values; `json.dumps(v, indent=2)` is modelled by the executable
  serializer `dumpJson` (faithful to field order and content; whitespace
  or indentation of the serialized form is abstracted).
* A tool-call argument mapping `dict[str, Any]` is modelled by the
  `Arguments` structure holding, per key any handler reads with
  `arguments.get`, an `Option` of the type the tool's declared input
  contract gives that key; an absent key is `none`.
* `datetime.utcnow().isoformat()` is modelled as an explicit timestamp
  parameter `ts : String`.
* Outbound network behaviour is an oracle parameter `HttpOutcome`:
  the awaited request either completes with an `HttpResponse`, raises
  `aiohttp.ClientError`, or raises some other exception.  Side effects
  performed by a handler (session acquisition, issuing a request) are
  recorded in an explicit `Effect` trace.
* Python `raise ValueError(...)` is modelled by `CallOutcome.raised`
  (resp. `ReadOutcome.raised`); the plain `return ValueError(...)`
  statement in `TestHttpToolsMcpServer.handle_call_tool` is modelled by
  `CallOutcome.returnedError` (the exception object returned as a value).
-/

/-- JSON values, as built by the Python handlers before `json.dumps`. -/
inductive Json where
  | null
  | bool (b : Bool)
  | str (s : String)
  | num (n : Int)
  | arr (items : List Json)
  | obj (fields : List (String × Json))
deriving Repr

/-- Escaping of one character inside a JSON string literal
(`Char.ofNat 34` is the double quote, `Char.ofNat 92` the backslash). -/
def escapeChar (c : Char) : String :=
  if c = Char.ofNat 34 then "\\\""
  else if c = Char.ofNat 92 then "\\\\"
  else String.singleton c

/-- Escaping of a JSON string literal's body. -/
def escapeString (s : String) : String :=
  String.join (s.toList.map escapeChar)

mutual

/-- Serializer modelling Python `json.dumps` (indentation abstracted). -/
def dumpJson : Json → String
  | Json.null => "null"
  | Json.bool true => "true"
  | Json.bool false => "false"
  | Json.str s => "\"" ++ escapeString s ++ "\""
  | Json.num n => toString n
  | Json.arr items => "[" ++ dumpItems items ++ "]"
  | Json.obj fields => "\x7b" ++ dumpFields fields ++ "\x7d"

/-- Serializer for a JSON array's items. -/
def dumpItems : List Json → String
  | [] => ""
  | [x] => dumpJson x
  | x :: xs => dumpJson x ++ ", " ++ dumpItems xs

/-- Serializer for a JSON object's fields. -/
def dumpFields : List (String × Json) → String
  | [] => ""
  | [(k, v)] => "\"" ++ escapeString k ++ "\": " ++ dumpJson v
  | (k, v) :: xs => "\"" ++ escapeString k ++ "\": " ++ dumpJson v ++ ", " ++ dumpFields xs

end

/-- Field lookup inside a JSON object value (`none` on non-objects). -/
def Json.lookupField : Json → String → Option Json
  | Json.obj fields, k => fields.lookup k
  | _, _ => none

/-- `mcp.types.TextContent`: one content block of a tool result. -/
structure TextContent where
  type : String
  text : String
deriving Repr, DecidableEq

/-- `mcp.types.Tool`: one tool descriptor (name, description, schema). -/
structure Tool where
  name : String
  description : String
  inputSchema : Json
deriving Repr

/-- The tool-call argument mapping `dict[str, Any]`, restricted to the
keys the handlers read, each typed per the declared input contract. -/
structure Arguments where
  url : Option String
  method : Option String
  headers : Option (List (String × String))
  body : Option String
  city : Option String
  message : Option String
deriving Repr, DecidableEq

/-- The empty argument mapping. -/
def Arguments.empty : Arguments := ⟨none, none, none, none, none, none⟩

/-- Python `str.upper()`: uppercase every character (the argument
strings here are ASCII, where `Char.toUpper` and Python agree). -/
def pyUpper (s : String) : String := String.mk (s.toList.map Char.toUpper)

/-- Python truthiness of an optional string: `None` and `""` are falsy. -/
def bodyTruthy : Option String → Bool
  | none => false
  | some s => decide (s ≠ "")

/-- A JSON value for a Python variable holding an optional string
(`None` serializes as JSON null). -/
def jsonOfOptStr : Option String → Json
  | none => Json.null
  | some s => Json.str s

/-- A completed outbound HTTP response as the handler observes it:
`response.status`, `dict(response.headers)` (already folded to a flat
string-to-string mapping), `await response.text()`, and
`str(response.url)` (the final resolved URL after redirects). -/
structure HttpResponse where
  status : Nat
  headers : List (String × String)
  text : String
  url : String
deriving Repr, DecidableEq

/-- Behaviour of the awaited outbound request: completion, an
`aiohttp.ClientError`, or any other unexpected exception. -/
inductive HttpOutcome where
  | ok (resp : HttpResponse)
  | clientError (msg : String)
  | otherError (msg : String)
deriving Repr, DecidableEq

/-- The keyword arguments handed to `session.request(method, **kwargs)`. -/
structure OutboundRequest where
  method : String
  url : Option String
  headers : List (String × String)
  data : Option String
  ssl : Bool
deriving Repr, DecidableEq

/-- Observable side effects of a handler: acquiring the shared session,
or issuing (attempting) an outbound HTTP request. -/
inductive Effect where
  | getSession
  | request (req : OutboundRequest)
deriving Repr, DecidableEq

/-- Result of one `handle_call_tool` invocation: a normal return of
content blocks, a `return ValueError(...)` of the exception object as the
value, or a `raise ValueError(...)`. -/
inductive CallOutcome where
  | content (blocks : List TextContent)
  | returnedError (msg : String)
  | raised (msg : String)
deriving Repr, DecidableEq

namespace TestHttpToolsMcpServer

/-- The module-global `http_session: Optional[aiohttp.ClientSession]`,
modelled by its identity and closed flag. -/
structure ClientSession where
  sid : Nat
  closed : Bool
deriving Repr, DecidableEq

/-- `get_http_session` (lines 22-27): if the global session is `None` or
closed, create a fresh session (identified by `fresh`) and store it;
always return the stored session.  Result: (returned session, new global
state). -/
def get_http_session (http_session : Option ClientSession) (fresh : Nat) :
    ClientSession × Option ClientSession :=
  match http_session with
  | none => (⟨fresh, false⟩, some ⟨fresh, false⟩)
  | some s => if s.closed then (⟨fresh, false⟩, some ⟨fresh, false⟩) else (s, some s)

/-- The `finally` block of `main` (lines 227-232): if the global session
exists and is not closed, `await http_session.close()`.  Result: (new
global state, whether `close()` was called). -/
def shutdown_cleanup (http_session : Option ClientSession) :
    Option ClientSession × Bool :=
  match http_session with
  | none => (none, false)
  | some s => if !s.closed then (some ⟨s.sid, true⟩, true) else (some s, false)

/-- `handle_list_tools` (lines 29-86): the static tool registry. -/
def handle_list_tools : List Tool :=
  [⟨"debug_info", "Get server debug information",
    Json.obj [("type", Json.str "object"),
              ("properties", Json.obj []),
              ("additionalProperties", Json.bool false)]⟩,
   ⟨"fetch_api_data", "Fetch data from a REST API endpoint",
    Json.obj [("type", Json.str "object"),
              ("properties", Json.obj
                [("url", Json.obj [("type", Json.str "string"),
                                   ("description", Json.str "API endpoint URL")]),
                 ("method", Json.obj [("type", Json.str "string"),
                                      ("enum", Json.arr [Json.str "GET", Json.str "POST",
                                                         Json.str "PUT", Json.str "DELETE"]),
                                      ("default", Json.str "GET"),
                                      ("description", Json.str "Http Method")]),
                 ("headers", Json.obj [("type", Json.str "object"),
                                       ("description", Json.str "Optional HTTP headers"),
                                       ("additionalProperties",
                                        Json.obj [("type", Json.str "string")])]),
                 ("body", Json.obj [("type", Json.str "string"),
                                    ("description", Json.str "Request body (for POST/PUT)")])]),
              ("required", Json.arr [Json.str "url"])]⟩,
   ⟨"weather_api", "Get weather information for a city",
    Json.obj [("type", Json.str "object"),
              ("properties", Json.obj
                [("city", Json.obj [("type", Json.str "string"),
                                    ("description", Json.str "City name")])]),
              ("required", Json.arr [Json.str "city"])]⟩]

/-- The `enum` list declared for `fetch_api_data`'s `method` parameter,
extracted from the registered tool descriptor's input schema. -/
def declared_method_enum : Option Json :=
  ((handle_list_tools.find? (fun t => t.name == "fetch_api_data")).map Tool.inputSchema).bind
    (fun s => (Json.lookupField s "properties").bind
      (fun p => (Json.lookupField p "method").bind
        (fun m => Json.lookupField m "enum")))

/-- The `tools_available` list inside `debug_info`'s response (line 97). -/
def tools_available : List String := ["debug_info", "fetch_api_data", "weather_api"]

/-- The `debug_data` dict built by the `debug_info` branch (lines 94-100). -/
def debug_data (ts : String) : List (String × Json) :=
  [("server_name", Json.str "debug-mcp-server"),
   ("timestamp", Json.str ts),
   ("tools_available", Json.arr (tools_available.map Json.str)),
   ("resources_available", Json.arr [Json.str "config://settings", Json.str "debug://logs"]),
   ("status", Json.str "running")]

/-- The `kwargs` preparation of `handle_api_call` (lines 122-131): start
from `url`, `headers`, `ssl=False`; if `body` is truthy and the
uppercased method is POST, PUT or PATCH, attach `data=body` and, when the
headers mapping has no `Content-Type` key, inject
`Content-Type: application/json`. -/
def api_request_kwargs (url : Option String) (method : String)
    (headers : List (String × String)) (body : Option String) : OutboundRequest :=
  if bodyTruthy body && (method == "POST" || method == "PUT" || method == "PATCH") then
    ⟨method, url,
     (if (headers.lookup "Content-Type").isNone
      then headers ++ [("Content-Type", "application/json")]
      else headers),
     body, false⟩
  else
    ⟨method, url, headers, none, false⟩

/-- The `result` dict of `handle_api_call`'s success path (lines 138-144). -/
def api_success_result (resp : HttpResponse) (method : String) : List (String × Json) :=
  [("status_code", Json.num (Int.ofNat resp.status)),
   ("headers", Json.obj (resp.headers.map (fun p => (p.1, Json.str p.2)))),
   ("body", Json.str resp.text),
   ("url", Json.str resp.url),
   ("method", Json.str method)]

/-- The `error_result` dict of `handle_api_call`'s two `except` branches
(lines 151-156 and 161-166), parameterized by the error category. -/
def api_error_result (category msg : String) (url : Option String) (method : String) :
    List (String × Json) :=
  [("error", Json.str category),
   ("message", Json.str msg),
   ("url", jsonOfOptStr url),
   ("method", Json.str method)]

/-- `handle_api_call` (lines 111-167): extract `url`, `method` (default
GET, uppercased), `headers` (default empty), `body`; acquire the shared
session, issue the request built by `api_request_kwargs`, and convert the
outcome — completion, `aiohttp.ClientError`, or any other exception — to
a one-block text result.  No path escapes with an exception. -/
def handle_api_call (arguments : Arguments) (outcome : HttpOutcome) :
    List TextContent × List Effect :=
  let url := arguments.url
  let method := pyUpper (arguments.method.getD "GET")
  let headers := arguments.headers.getD []
  let body := arguments.body
  let kwargs := api_request_kwargs url method headers body
  let trace := [Effect.getSession, Effect.request kwargs]
  match outcome with
  | HttpOutcome.ok resp =>
      ([⟨"text", dumpJson (Json.obj (api_success_result resp method))⟩], trace)
  | HttpOutcome.clientError msg =>
      ([⟨"text", dumpJson (Json.obj (api_error_result "HTTP Client Error" msg url method))⟩],
       trace)
  | HttpOutcome.otherError msg =>
      ([⟨"text", dumpJson (Json.obj (api_error_result "Unexpected Error" msg url method))⟩],
       trace)

/-- The `params` dict built (and never used for a request) by
`handle_weather_api` (lines 181-185). -/
def weather_params (city : Option String) : List (String × Json) :=
  [("q", jsonOfOptStr city),
   ("appid", Json.str "your_api_key_here"),
   ("units", Json.str "metric")]

/-- The `mock_weather_data` dict (lines 188-195). -/
def mock_weather_data (city : Option String) : List (String × Json) :=
  [("city", jsonOfOptStr city),
   ("temperature", Json.str "22Â°C"),
   ("description", Json.str "Partly cloudy"),
   ("humidity", Json.str "65%"),
   ("wind_speed", Json.str "10 km/h"),
   ("note", Json.str "This is mock data. Replace with real API key for actual data.")]

/-- `handle_weather_api` (lines 169-207): acquires the shared session and
builds `params`, but issues no request; returns the mock payload. -/
def handle_weather_api (arguments : Arguments) : List TextContent × List Effect :=
  let city := arguments.city
  let _params := weather_params city
  ([⟨"text", dumpJson (Json.obj (mock_weather_data city))⟩], [Effect.getSession])

/-- `handle_call_tool` (lines 88-109): dispatch by exact tool name.  The
unknown-name branch executes `return ValueError(f"Unknown tool:{name}")`
— it returns the exception object as the function's value. -/
def handle_call_tool (name : String) (arguments : Arguments) (ts : String)
    (outcome : HttpOutcome) : CallOutcome × List Effect :=
  if name == "debug_info" then
    (CallOutcome.content [⟨"text", dumpJson (Json.obj (debug_data ts))⟩], [])
  else if name == "fetch_api_data" then
    let r := handle_api_call arguments outcome
    (CallOutcome.content r.1, r.2)
  else if name == "weather_api" then
    let r := handle_weather_api arguments
    (CallOutcome.content r.1, r.2)
  else
    (CallOutcome.returnedError ("Unknown tool:" ++ name), [])

end TestHttpToolsMcpServer

/-- Result of one `handle_read_resource` invocation in `mcpserver.py`:
the returned text, or a `raise ValueError(...)`. -/
inductive ReadOutcome where
  | returned (text : String)
  | raised (msg : String)
deriving Repr, DecidableEq

namespace Mcpserver

/-- `handle_list_tools` (`src/mcpserver.py`, lines 20-48): the static
tool registry of the simpler server variant. -/
def handle_list_tools : List Tool :=
  [⟨"echo", "Echo back the input with timestamp and debug info",
    Json.obj [("type", Json.str "object"),
              ("properties", Json.obj
                [("message", Json.obj [("type", Json.str "string"),
                                       ("description", Json.str "Message to echo back")])]),
              ("required", Json.arr [Json.str "message"])]⟩,
   ⟨"debug_info", "Get server debug information",
    Json.obj [("type", Json.str "object"),
              ("properties", Json.obj []),
              ("additionalProperties", Json.bool false)]⟩]

/-- The `tools_available` list inside `debug_info`'s response
(`src/mcpserver.py`, line 66). -/
def tools_available : List String := ["echo", "debug_info"]

/-- The `debug_data` dict built by the `debug_info` branch
(`src/mcpserver.py`, lines 63-69). -/
def debug_data (ts : String) : List (String × Json) :=
  [("server_name", Json.str "debug-mcp-server"),
   ("timestamp", Json.str ts),
   ("tools_available", Json.arr (tools_available.map Json.str)),
   ("resources_available", Json.arr [Json.str "config://settings"]),
   ("status", Json.str "running")]

/-- `handle_call_tool` (`src/mcpserver.py`, lines 50-74): dispatch by
exact tool name; the unknown-name branch executes
`raise ValueError(f"Unknown tool: {name}")`. -/
def handle_call_tool (name : String) (arguments : Arguments) (ts : String) : CallOutcome :=
  if name == "echo" then
    CallOutcome.content
      [⟨"text", "Echo at " ++ ts ++ ": " ++ arguments.message.getD ""⟩]
  else if name == "debug_info" then
    CallOutcome.content [⟨"text", dumpJson (Json.obj (debug_data ts))⟩]
  else
    CallOutcome.raised ("Unknown tool: " ++ name)

/-- The `config` dict built by `handle_read_resource` for
`config://settings` (`src/mcpserver.py`, lines 101-105). -/
def settings_config (ts : String) : List (String × Json) :=
  [("version", Json.str "1.0"),
   ("debug", Json.bool true),
   ("last_updated", Json.str ts)]

/-- `handle_read_resource` (`src/mcpserver.py`, lines 95-113): exact
URI match; `config://settings` returns `json.dumps(config, indent=2)`,
`debug://logs` returns a plain-text status line, any other URI executes
`raise ValueError(f"Unknown resource: {uri}")`. -/
def handle_read_resource (uri : String) (ts : String) : ReadOutcome :=
  if uri == "config://settings" then
    ReadOutcome.returned (dumpJson (Json.obj (settings_config ts)))
  else if uri == "debug://logs" then
    ReadOutcome.returned ("Debug logs as of " ++ ts ++ "\nServer is running normally.")
  else
    ReadOutcome.raised ("Unknown resource: " ++ uri)

end Mcpserver

/-- Claim C1 (code_bug evidence): evaluation of both dispatchers at the
failing input `call_tool("nonexistent_tool", {})`.  In
`src/mcpserver.py` the unknown-name branch raises `ValueError` as a true
error, as the claim states; but in `src/TestHttpToolsMcpServer.py` (line
109) the handler executes `return ValueError(f"Unknown tool:{name}")`,
returning the exception object as its value — contradicting the claim
(and the function's own `-> list[TextContent]` annotation). -/
theorem C1_unknown_tool_divergence :
    TestHttpToolsMcpServer.handle_call_tool "nonexistent_tool" Arguments.empty
        "2024-01-01T00:00:00" (HttpOutcome.clientError "") =
      (CallOutcome.returnedError "Unknown tool:nonexistent_tool", []) ∧
    Mcpserver.handle_call_tool "nonexistent_tool" Arguments.empty "2024-01-01T00:00:00" =
      CallOutcome.raised "Unknown tool: nonexistent_tool" := by
  exact ⟨rfl, rfl⟩

/-- Claim C2: for every argument mapping, both failure paths of
`handle_api_call` — an `aiohttp.ClientError` and any other unexpected
exception — are caught and converted into a one-block text result built
from `api_error_result`, which carries an error category ("HTTP Client
Error" resp. "Unexpected Error"), the human message, the original `url`
argument, and the (uppercased, defaulted) method; and the dispatcher
receives this as ordinary `content`, never an escaped exception. -/
theorem C2_api_failures_are_reported_results (arguments : Arguments) (msg ts : String) :
    (TestHttpToolsMcpServer.handle_api_call arguments (HttpOutcome.clientError msg) =
      ([⟨"text", dumpJson (Json.obj (TestHttpToolsMcpServer.api_error_result "HTTP Client Error"
          msg arguments.url (pyUpper (arguments.method.getD "GET"))))⟩],
       [Effect.getSession,
        Effect.request (TestHttpToolsMcpServer.api_request_kwargs arguments.url
          (pyUpper (arguments.method.getD "GET")) (arguments.headers.getD []) arguments.body)])) ∧
    (TestHttpToolsMcpServer.handle_api_call arguments (HttpOutcome.otherError msg) =
      ([⟨"text", dumpJson (Json.obj (TestHttpToolsMcpServer.api_error_result "Unexpected Error"
          msg arguments.url (pyUpper (arguments.method.getD "GET"))))⟩],
       [Effect.getSession,
        Effect.request (TestHttpToolsMcpServer.api_request_kwargs arguments.url
          (pyUpper (arguments.method.getD "GET")) (arguments.headers.getD []) arguments.body)])) ∧
    (∀ category m u M,
      (TestHttpToolsMcpServer.api_error_result category m u M).lookup "error" =
        some (Json.str category) ∧
      (TestHttpToolsMcpServer.api_error_result category m u M).lookup "message" =
        some (Json.str m) ∧
      (TestHttpToolsMcpServer.api_error_result category m u M).lookup "url" =
        some (jsonOfOptStr u) ∧
      (TestHttpToolsMcpServer.api_error_result category m u M).lookup "method" =
        some (Json.str M)) ∧
    (TestHttpToolsMcpServer.handle_call_tool "fetch_api_data" arguments ts
        (HttpOutcome.clientError msg) =
      (CallOutcome.content
        (TestHttpToolsMcpServer.handle_api_call arguments (HttpOutcome.clientError msg)).1,
       (TestHttpToolsMcpServer.handle_api_call arguments (HttpOutcome.clientError msg)).2)) ∧
    (TestHttpToolsMcpServer.handle_call_tool "fetch_api_data" arguments ts
        (HttpOutcome.otherError msg) =
      (CallOutcome.content
        (TestHttpToolsMcpServer.handle_api_call arguments (HttpOutcome.otherError msg)).1,
       (TestHttpToolsMcpServer.handle_api_call arguments (HttpOutcome.otherError msg)).2)) := by
  refine ⟨rfl, rfl, ?_, rfl, rfl⟩
  intro category m u M
  exact ⟨rfl, rfl, rfl, rfl⟩

/-- Claim C4: for every argument mapping and every completed response
(any status code), `handle_api_call` returns a one-block success result
built from `api_success_result`, which carries the numeric status code,
the flat response-header mapping, the raw body text, the final resolved
URL, and the method used; it has no "error" field, and the dispatcher
receives it as ordinary `content` — the remote status is never treated
as a failure at this layer. -/
theorem C4_completed_response_is_success (arguments : Arguments) (resp : HttpResponse)
    (ts : String) :
    (TestHttpToolsMcpServer.handle_api_call arguments (HttpOutcome.ok resp) =
      ([⟨"text", dumpJson (Json.obj (TestHttpToolsMcpServer.api_success_result resp
          (pyUpper (arguments.method.getD "GET"))))⟩],
       [Effect.getSession,
        Effect.request (TestHttpToolsMcpServer.api_request_kwargs arguments.url
          (pyUpper (arguments.method.getD "GET")) (arguments.headers.getD []) arguments.body)])) ∧
    (∀ M,
      (TestHttpToolsMcpServer.api_success_result resp M).lookup "status_code" =
        some (Json.num (Int.ofNat resp.status)) ∧
      (TestHttpToolsMcpServer.api_success_result resp M).lookup "headers" =
        some (Json.obj (resp.headers.map (fun p => (p.1, Json.str p.2)))) ∧
      (TestHttpToolsMcpServer.api_success_result resp M).lookup "body" =
        some (Json.str resp.text) ∧
      (TestHttpToolsMcpServer.api_success_result resp M).lookup "url" =
        some (Json.str resp.url) ∧
      (TestHttpToolsMcpServer.api_success_result resp M).lookup "method" =
        some (Json.str M) ∧
      (TestHttpToolsMcpServer.api_success_result resp M).lookup "error" = none) ∧
    (TestHttpToolsMcpServer.handle_call_tool "fetch_api_data" arguments ts
        (HttpOutcome.ok resp) =
      (CallOutcome.content
        (TestHttpToolsMcpServer.handle_api_call arguments (HttpOutcome.ok resp)).1,
       (TestHttpToolsMcpServer.handle_api_call arguments (HttpOutcome.ok resp)).2)) := by
  refine ⟨rfl, ?_, rfl⟩
  intro M
  exact ⟨rfl, rfl, rfl, rfl, rfl, rfl⟩

/-- Claim C3: for every argument mapping with a supplied (truthy) body
and effective method POST or PUT, the body is attached as the raw
request payload (`data`), and `Content-Type: application/json` is added
to the outgoing headers exactly when the caller's headers mapping
contains no `Content-Type` key; the request handed to
`session.request` is the one built by `api_request_kwargs`. -/
theorem C3_post_put_body_and_content_type (arguments : Arguments) (b M : String)
    (H : List (String × String))
    (hb : arguments.body = some b) (hbne : b ≠ "")
    (hM : M = pyUpper (arguments.method.getD "GET"))
    (hH : H = arguments.headers.getD [])
    (hm : M = "POST" ∨ M = "PUT")
    (outcome : HttpOutcome) :
    (TestHttpToolsMcpServer.handle_api_call arguments outcome).2 =
      [Effect.getSession,
       Effect.request (TestHttpToolsMcpServer.api_request_kwargs arguments.url M H (some b))] ∧
    (TestHttpToolsMcpServer.api_request_kwargs arguments.url M H (some b)).data = some b ∧
    (H.lookup "Content-Type" = none →
      (TestHttpToolsMcpServer.api_request_kwargs arguments.url M H (some b)).headers =
        H ++ [("Content-Type", "application/json")]) ∧
    (∀ v, H.lookup "Content-Type" = some v →
      (TestHttpToolsMcpServer.api_request_kwargs arguments.url M H (some b)).headers = H) := by
  have hcond : (bodyTruthy (some b) &&
      (M == "POST" || M == "PUT" || M == "PATCH")) = true := by
    rcases hm with rfl | rfl <;> simp [bodyTruthy, hbne]
  refine ⟨?_, ?_, ?_, ?_⟩
  · cases outcome <;> simp [TestHttpToolsMcpServer.handle_api_call, hb, hM, hH]
  · simp [TestHttpToolsMcpServer.api_request_kwargs, hcond]
  · intro hct
    simp [TestHttpToolsMcpServer.api_request_kwargs, hcond, hct]
  · intro v hct
    simp [TestHttpToolsMcpServer.api_request_kwargs, hcond, hct]

/-- Witness for C3 at a concrete input: url absent, method "POST",
no headers, body "x". -/
theorem C3_witness :
    (TestHttpToolsMcpServer.api_request_kwargs none "POST" [] (some "x")).data = some "x" ∧
    (TestHttpToolsMcpServer.api_request_kwargs none "POST" [] (some "x")).headers =
      [] ++ [("Content-Type", "application/json")] := by
  have h := C3_post_put_body_and_content_type
    ⟨none, some "POST", none, some "x", none, none⟩ "x" "POST" []
    rfl (by decide) (by decide) rfl (Or.inl rfl) (HttpOutcome.clientError "")
  exact ⟨h.2.1, h.2.2.1 rfl⟩

/-- Claim C5: the shared outbound session is created lazily on first
acquisition; a later acquisition returns the very same session while it
is non-null and not closed; a new one is created exactly when the stored
one is absent or closed; the global slot always holds exactly the
returned session (so at most one live session exists); and the shutdown
cleanup closes a live session (and only calls `close()` on a session
that is not already closed). -/
theorem C5_session_lifecycle (s : TestHttpToolsMcpServer.ClientSession) (fresh : Nat) :
    TestHttpToolsMcpServer.get_http_session none fresh =
      (⟨fresh, false⟩, some ⟨fresh, false⟩) ∧
    (s.closed = false →
      TestHttpToolsMcpServer.get_http_session (some s) fresh = (s, some s)) ∧
    (s.closed = true →
      TestHttpToolsMcpServer.get_http_session (some s) fresh =
        (⟨fresh, false⟩, some ⟨fresh, false⟩)) ∧
    (∀ st, (TestHttpToolsMcpServer.get_http_session st fresh).2 =
      some (TestHttpToolsMcpServer.get_http_session st fresh).1) ∧
    (TestHttpToolsMcpServer.get_http_session none fresh).1.closed = false ∧
    (s.closed = false →
      TestHttpToolsMcpServer.shutdown_cleanup (some s) = (some ⟨s.sid, true⟩, true)) ∧
    (s.closed = true →
      TestHttpToolsMcpServer.shutdown_cleanup (some s) = (some s, false)) := by
  refine ⟨rfl, ?_, ?_, ?_, rfl, ?_, ?_⟩
  · intro h; simp [TestHttpToolsMcpServer.get_http_session, h]
  · intro h; simp [TestHttpToolsMcpServer.get_http_session, h]
  · intro st
    rcases st with _ | t
    · rfl
    · cases ht : t.closed <;> simp [TestHttpToolsMcpServer.get_http_session, ht]
  · intro h; simp [TestHttpToolsMcpServer.shutdown_cleanup, h]
  · intro h; simp [TestHttpToolsMcpServer.shutdown_cleanup, h]

/-- Witness for C5 at a concrete state: a live session with id 0 is
reused by acquisition and closed by the shutdown cleanup. -/
theorem C5_witness :
    TestHttpToolsMcpServer.get_http_session (some ⟨0, false⟩) 1 =
      (⟨0, false⟩, some ⟨0, false⟩) ∧
    TestHttpToolsMcpServer.shutdown_cleanup (some ⟨0, false⟩) = (some ⟨0, true⟩, true) := by
  have h := C5_session_lifecycle ⟨0, false⟩ 1
  exact ⟨h.2.1 rfl, h.2.2.2.2.2.1 rfl⟩

/-- Claim C9: `handle_api_call` does not validate the method against the
declared enum: any supplied method string is uppercased and used as the
outbound request's method; with a truthy body, the body is attached also
when the uppercased method is "PATCH" — a value absent from the enum
GET/POST/PUT/DELETE declared in `fetch_api_data`'s input schema. -/
theorem C9_method_passthrough_patch (arguments : Arguments) (m b : String)
    (hm : arguments.method = some m) (hb : arguments.body = some b) (hbne : b ≠ "")
    (outcome : HttpOutcome) :
    (TestHttpToolsMcpServer.handle_api_call arguments outcome).2 =
      [Effect.getSession,
       Effect.request (TestHttpToolsMcpServer.api_request_kwargs arguments.url (pyUpper m)
         (arguments.headers.getD []) (some b))] ∧
    (TestHttpToolsMcpServer.api_request_kwargs arguments.url (pyUpper m)
        (arguments.headers.getD []) (some b)).method = pyUpper m ∧
    (pyUpper m = "PATCH" →
      (TestHttpToolsMcpServer.api_request_kwargs arguments.url "PATCH"
          (arguments.headers.getD []) (some b)).data = some b) ∧
    TestHttpToolsMcpServer.declared_method_enum =
      some (Json.arr [Json.str "GET", Json.str "POST", Json.str "PUT", Json.str "DELETE"]) ∧
    (∀ items, TestHttpToolsMcpServer.declared_method_enum = some (Json.arr items) →
      Json.str "PATCH" ∉ items) := by
  refine ⟨?_, ?_, ?_, rfl, ?_⟩
  · cases outcome <;> simp [TestHttpToolsMcpServer.handle_api_call, hm, hb]
  · unfold TestHttpToolsMcpServer.api_request_kwargs
    split <;> rfl
  · intro _
    have hbt : bodyTruthy (some b) = true := by simp [bodyTruthy, hbne]
    simp [TestHttpToolsMcpServer.api_request_kwargs, hbt]
  · intro items h
    have h4 : TestHttpToolsMcpServer.declared_method_enum =
        some (Json.arr [Json.str "GET", Json.str "POST", Json.str "PUT",
                        Json.str "DELETE"]) := rfl
    rw [h4] at h
    have hlist : [Json.str "GET", Json.str "POST", Json.str "PUT", Json.str "DELETE"] =
        items := Json.arr.inj (Option.some.inj h)
    rw [← hlist]
    simp

/-- Witness for C9 at a concrete input: method "patch", body "x". -/
theorem C9_witness :
    (TestHttpToolsMcpServer.api_request_kwargs none "PATCH" [] (some "x")).data = some "x" := by
  have h := C9_method_passthrough_patch
    ⟨none, some "patch", none, some "x", none, none⟩ "patch" "x"
    rfl rfl (by decide) (HttpOutcome.clientError "")
  exact h.2.2.1 (by decide)

/-- Claim C10: when the body argument is present but equal to the empty
string (and the method is POST or PUT), no request payload is attached
and no `Content-Type` header is injected — body presence is decided by
Python truthiness of the value, not by presence of the key. -/
theorem C10_empty_body_not_attached (arguments : Arguments) (M : String)
    (H : List (String × String))
    (hb : arguments.body = some "")
    (hM : M = pyUpper (arguments.method.getD "GET"))
    (hH : H = arguments.headers.getD [])
    (_hm : M = "POST" ∨ M = "PUT") :
    (TestHttpToolsMcpServer.api_request_kwargs arguments.url M H (some "")).data = none ∧
    (TestHttpToolsMcpServer.api_request_kwargs arguments.url M H (some "")).headers = H ∧
    (∀ outcome, (TestHttpToolsMcpServer.handle_api_call arguments outcome).2 =
      [Effect.getSession,
       Effect.request (TestHttpToolsMcpServer.api_request_kwargs arguments.url M H
         (some ""))]) := by
  refine ⟨?_, ?_, ?_⟩
  · simp [TestHttpToolsMcpServer.api_request_kwargs, bodyTruthy]
  · simp [TestHttpToolsMcpServer.api_request_kwargs, bodyTruthy]
  · intro outcome
    cases outcome <;> simp [TestHttpToolsMcpServer.handle_api_call, hb, hM, hH]

/-- Witness for C10 at a concrete input: method "POST", body "". -/
theorem C10_witness :
    (TestHttpToolsMcpServer.api_request_kwargs none "POST" [] (some "")).data = none ∧
    (TestHttpToolsMcpServer.api_request_kwargs none "POST" [] (some "")).headers = [] := by
  have h := C10_empty_body_not_attached
    ⟨none, some "POST", none, some "", none, none⟩ "POST" [] rfl (by decide) rfl (Or.inl rfl)
  exact ⟨h.1, h.2.1⟩

/-- Claim C6: `handle_read_resource` is an exact-match lookup on the
URI: `config://settings` returns the serialized settings object, which
carries a schema version ("version": "1.0"), a debug flag
("debug": true) and a generation timestamp ("last_updated"); 
`debug://logs` returns a plain-text status line containing the
timestamp; every other URI raises `ValueError("Unknown resource: ...")`. -/
theorem C6_read_resource_exact_match (uri ts : String) :
    (uri = "config://settings" →
      Mcpserver.handle_read_resource uri ts =
        ReadOutcome.returned (dumpJson (Json.obj (Mcpserver.settings_config ts))) ∧
      (Mcpserver.settings_config ts).lookup "version" = some (Json.str "1.0") ∧
      (Mcpserver.settings_config ts).lookup "debug" = some (Json.bool true) ∧
      (Mcpserver.settings_config ts).lookup "last_updated" = some (Json.str ts)) ∧
    (uri = "debug://logs" →
      Mcpserver.handle_read_resource uri ts =
        ReadOutcome.returned ("Debug logs as of " ++ ts ++ "\nServer is running normally.")) ∧
    (uri ≠ "config://settings" → uri ≠ "debug://logs" →
      Mcpserver.handle_read_resource uri ts =
        ReadOutcome.raised ("Unknown resource: " ++ uri)) := by
  refine ⟨?_, ?_, ?_⟩
  · rintro rfl
    exact ⟨rfl, rfl, rfl, rfl⟩
  · rintro rfl
    rfl
  · intro h1 h2
    simp [Mcpserver.handle_read_resource, h1, h2]

/-- Witness for C6 at concrete URIs: the settings resource and an
unregistered URI. -/
theorem C6_witness :
    Mcpserver.handle_read_resource "config://settings" "2024-01-01T00:00:00" =
      ReadOutcome.returned
        (dumpJson (Json.obj (Mcpserver.settings_config "2024-01-01T00:00:00"))) ∧
    Mcpserver.handle_read_resource "foo://bar" "2024-01-01T00:00:00" =
      ReadOutcome.raised "Unknown resource: foo://bar" := by
  have h1 := C6_read_resource_exact_match "config://settings" "2024-01-01T00:00:00"
  have h2 := C6_read_resource_exact_match "foo://bar" "2024-01-01T00:00:00"
  exact ⟨(h1.1 rfl).1, h2.2.2 (by decide) (by decide)⟩

/-- Claim C7: in both server variants, `call_tool("debug_info", {})`
returns a single text block holding the serialized debug object, and the
`tools_available` list inside it contains exactly the tool names of the
enumeration result `handle_list_tools` (set equality in both
directions). -/
theorem C7_debug_info_enumeration (ts : String) (arguments : Arguments)
    (outcome : HttpOutcome) :
    TestHttpToolsMcpServer.handle_call_tool "debug_info" arguments ts outcome =
      (CallOutcome.content
        [⟨"text", dumpJson (Json.obj (TestHttpToolsMcpServer.debug_data ts))⟩], []) ∧
    (TestHttpToolsMcpServer.debug_data ts).lookup "tools_available" =
      some (Json.arr (TestHttpToolsMcpServer.tools_available.map Json.str)) ∧
    (∀ n : String, n ∈ TestHttpToolsMcpServer.tools_available ↔
      n ∈ TestHttpToolsMcpServer.handle_list_tools.map Tool.name) ∧
    Mcpserver.handle_call_tool "debug_info" arguments ts =
      CallOutcome.content [⟨"text", dumpJson (Json.obj (Mcpserver.debug_data ts))⟩] ∧
    (Mcpserver.debug_data ts).lookup "tools_available" =
      some (Json.arr (Mcpserver.tools_available.map Json.str)) ∧
    (∀ n : String, n ∈ Mcpserver.tools_available ↔
      n ∈ Mcpserver.handle_list_tools.map Tool.name) := by
  refine ⟨rfl, rfl, ?_, rfl, rfl, ?_⟩
  · intro n
    have he : TestHttpToolsMcpServer.handle_list_tools.map Tool.name =
        TestHttpToolsMcpServer.tools_available := rfl
    rw [he]
  · intro n
    have he : Mcpserver.handle_list_tools.map Tool.name = Mcpserver.tools_available := rfl
    rw [he]

/-- Claim C8: for every argument mapping supplying a city string,
`call_tool("weather_api", {"city": c})` returns the fixed-shape mock
payload whose "city" field equals the supplied city and whose "note"
field marks the data as mock; and the weather handler's effect trace
contains no outbound HTTP request. -/
theorem C8_weather_mock (arguments : Arguments) (c : String)
    (hc : arguments.city = some c) (ts : String) (outcome : HttpOutcome) :
    TestHttpToolsMcpServer.handle_call_tool "weather_api" arguments ts outcome =
      (CallOutcome.content
        [⟨"text", dumpJson (Json.obj (TestHttpToolsMcpServer.mock_weather_data (some c)))⟩],
       [Effect.getSession]) ∧
    (TestHttpToolsMcpServer.mock_weather_data (some c)).lookup "city" =
      some (Json.str c) ∧
    (TestHttpToolsMcpServer.mock_weather_data (some c)).lookup "note" =
      some (Json.str "This is mock data. Replace with real API key for actual data.") ∧
    (∀ r, Effect.request r ∉ (TestHttpToolsMcpServer.handle_weather_api arguments).2) := by
  refine ⟨?_, rfl, rfl, ?_⟩
  · simp [TestHttpToolsMcpServer.handle_call_tool, TestHttpToolsMcpServer.handle_weather_api, hc]
  · intro r
    simp [TestHttpToolsMcpServer.handle_weather_api]

/-- Witness for C8 at a concrete input: city "Paris". -/
theorem C8_witness :
    TestHttpToolsMcpServer.handle_call_tool "weather_api"
        ⟨none, none, none, none, some "Paris", none⟩ "2024-01-01T00:00:00"
        (HttpOutcome.clientError "") =
      (CallOutcome.content
        [⟨"text", dumpJson (Json.obj (TestHttpToolsMcpServer.mock_weather_data (some "Paris")))⟩],
       [Effect.getSession]) ∧
    (TestHttpToolsMcpServer.mock_weather_data (some "Paris")).lookup "city" =
      some (Json.str "Paris") := by
  have h := C8_weather_mock ⟨none, none, none, none, some "Paris", none⟩ "Paris" rfl
    "2024-01-01T00:00:00" (HttpOutcome.clientError "")
  exact ⟨h.1, h.2.1⟩
